import Mathlib

/-!
Verification of the Tracker event-lifecycle manager
(repository domeafavour/tracker, file src/tracker.ts).

JavaScript Map objects are modeled as insertion-ordered association
lists with string keys: Map.get looks up the first matching key,
Map.set updates an existing entry in place and appends a new one,
Map.delete removes the entry and keeps the order of the rest.
Console warnings and handler invocations are returned as explicit
event lists.  The clock (Date.now) and the id generator are injected
as explicit arguments, and the onCreate callback may fail with
Except.error, modeling a thrown exception.
-/

namespace Tracker

/-- Map.get on an insertion-ordered association list. -/
def mapGet {α : Type} : List (String × α) → String → Option α
  | [], _ => none
  | (k, v) :: rest, key => if k = key then some v else mapGet rest key

/-- Map.set: update in place when the key exists, append otherwise. -/
def mapSet {α : Type} : List (String × α) → String → α → List (String × α)
  | [], key, val => [(key, val)]
  | (k, v) :: rest, key, val =>
    if k = key then (key, val) :: rest else (k, v) :: mapSet rest key val

/-- Map.delete: remove the entry with the given key, if present. -/
def mapDelete {α : Type} : List (String × α) → String → List (String × α)
  | [], _ => []
  | (k, v) :: rest, key =>
    if k = key then rest else (k, v) :: mapDelete rest key

/-- typings.ts: TrackingInitialRecord. -/
structure TrackingInitialRecord where
  id : String
  type : String
  createdAt : Nat
deriving Repr, DecidableEq

/-- The argument passed to an onSubmit handler: the spread of the
stored record plus submittedAt and the caller-supplied data. -/
structure SubmittedRecord (α : Type) where
  id : String
  type : String
  createdAt : Nat
  submittedAt : Nat
  data : α
deriving Repr, DecidableEq

/-- The onSubmit configuration option: absent, a single global handler
function, or a per-type handler table (modeled by the list of types
that have an entry). -/
inductive OnSubmitConfig where
  | unconfigured
  | globalHandler
  | perType (handlerTypes : List String)
deriving Repr, DecidableEq

/-- The state of a Tracker instance: the initializedRecords field, a
Map from type to a Map from id to record. -/
structure TrackerState where
  records : List (String × List (String × TrackingInitialRecord))
deriving Repr, DecidableEq

/-- Tracker.ensureTypeRecords: create the type partition if absent and
return it together with the (possibly updated) state. -/
def ensureTypeRecords (ty : String) (st : TrackerState) :
    List (String × TrackingInitialRecord) × TrackerState :=
  match mapGet st.records ty with
  | some part => (part, st)
  | none => ([], ⟨mapSet st.records ty []⟩)

/-- Tracker.triggerSubmit: resolve the handler (the global function,
or the per-type table entry for the submitted type) and invoke it once
when one is present.  The returned list records the invocations. -/
def triggerSubmit {α : Type} (onSubmit : OnSubmitConfig)
    (record : TrackingInitialRecord) (submittedAt : Nat) (data : α)
    (ty : String) : List (SubmittedRecord α) :=
  match onSubmit with
  | OnSubmitConfig.unconfigured => []
  | OnSubmitConfig.globalHandler =>
    [⟨record.id, record.type, record.createdAt, submittedAt, data⟩]
  | OnSubmitConfig.perType handlerTypes =>
    if ty ∈ handlerTypes then
      [⟨record.id, record.type, record.createdAt, submittedAt, data⟩]
    else []

/-- Tracker.getRecord.  Returns the looked-up record, the console
warnings emitted, and the state after the call (the method never
mutates storage, so the input state is returned in every branch). -/
def getRecord (ty : String) (id : String) (st : TrackerState) :
    Option TrackingInitialRecord × List String × TrackerState :=
  match mapGet st.records ty with
  | none => (none, ["No records found for type " ++ ty], st)
  | some records =>
    match mapGet records id with
    | none =>
      (none, ["Record with id " ++ id ++ " not found for type " ++ ty], st)
    | some record => (some record, [], st)

/-- Tracker.create.  The generated id (generateId) and the timestamp
(Date.now) are passed in explicitly; onCreate is an optional callback
that may throw (Except.error).  Following the source, the record is
inserted into the partition before the callback runs, and a callback
exception propagates in the first component of the result. -/
def create {ε : Type}
    (onCreate : Option (TrackingInitialRecord → Except ε Unit))
    (ty : String) (id : String) (createdAt : Nat) (st : TrackerState) :
    Except ε TrackingInitialRecord × TrackerState :=
  let record : TrackingInitialRecord := ⟨id, ty, createdAt⟩
  let pair := ensureTypeRecords ty st
  let st2 : TrackerState :=
    ⟨mapSet pair.2.records ty (mapSet pair.1 id record)⟩
  match onCreate with
  | none => (Except.ok record, st2)
  | some f =>
    match f record with
    | Except.ok _ => (Except.ok record, st2)
    | Except.error e => (Except.error e, st2)

/-- The idOrRecord argument of Tracker.submit: a bare id string, or a
record-like value whose id field may be missing (undefined). -/
inductive IdOrRecord where
  | str (s : String)
  | recLike (id : Option String)
deriving Repr, DecidableEq

/-- The source expression
typeof idOrRecord === "string" ? idOrRecord : idOrRecord?.id. -/
def usableId : Option IdOrRecord → Option String
  | none => none
  | some (IdOrRecord.str s) => some s
  | some (IdOrRecord.recLike oid) => oid

/-- JavaScript truthiness of the resolved id, as tested by if (!id):
undefined and the empty string are both falsy. -/
def truthyId : Option String → Option String
  | none => none
  | some s => if s = "" then none else some s

/-- records.forEach with deletion during iteration: entries of the
original map are visited in insertion order against the live map cur;
an entry already deleted when reached is skipped; each visited record
is dispatched through triggerSubmit and then records.delete(record.id)
runs on the live map. -/
def forEachRun {α : Type} (onSubmit : OnSubmitConfig) (submittedAt : Nat)
    (data : α) (ty : String) :
    List (String × TrackingInitialRecord) →
    List (String × TrackingInitialRecord) →
    List (SubmittedRecord α) × List (String × TrackingInitialRecord)
  | cur, [] => ([], cur)
  | cur, (k, _) :: rest =>
    match mapGet cur k with
    | none => forEachRun onSubmit submittedAt data ty cur rest
    | some r0 =>
      let next :=
        forEachRun onSubmit submittedAt data ty (mapDelete cur r0.id) rest
      (triggerSubmit onSubmit r0 submittedAt data ty ++ next.1, next.2)

/-- Tracker.submit.  Returns the new state, the console warnings, and
the submitted records passed to handler invocations, in order. -/
def submit {α : Type} (onSubmit : OnSubmitConfig) (ty : String) (data : α)
    (idOrRecord : Option IdOrRecord) (submittedAt : Nat)
    (st : TrackerState) :
    TrackerState × List String × List (SubmittedRecord α) :=
  let pair := ensureTypeRecords ty st
  let records := pair.1
  let st1 := pair.2
  match truthyId (usableId idOrRecord) with
  | none =>
    let run := forEachRun onSubmit submittedAt data ty records records
    (⟨mapSet st1.records ty run.2⟩, [], run.1)
  | some id =>
    match mapGet records id with
    | none =>
      (st1, ["Record with id " ++ id ++ " not found for type " ++ ty], [])
    | some record =>
      (⟨mapSet st1.records ty (mapDelete records id)⟩, [],
        triggerSubmit onSubmit record submittedAt data ty)

/-- Well-formedness that every state reachable through the class API
satisfies: within each type partition the keys are pairwise distinct
(JavaScript Map keys are unique) and each entry is stored under its
own record id. -/
def WFState (st : TrackerState) : Prop :=
  ∀ p ∈ st.records, (p.2.map Prod.fst).Nodup ∧ ∀ e ∈ p.2, e.1 = e.2.id

/-! Association-list lemmas. -/

theorem mapGet_mapSet_self {α : Type} (l : List (String × α)) (k : String)
    (v : α) : mapGet (mapSet l k v) k = some v := by
  induction l with
  | nil => simp [mapSet, mapGet]
  | cons hd tl ih =>
    obtain ⟨k0, v0⟩ := hd
    by_cases h : k0 = k
    · simp [mapSet, h, mapGet]
    · simp [mapSet, h, mapGet, ih]

theorem mapGet_mapSet_ne {α : Type} (l : List (String × α)) {k k2 : String}
    (v : α) (h : k2 ≠ k) : mapGet (mapSet l k v) k2 = mapGet l k2 := by
  induction l with
  | nil => simp [mapSet, mapGet, Ne.symm h]
  | cons hd tl ih =>
    obtain ⟨k0, v0⟩ := hd
    by_cases h0 : k0 = k
    · subst h0
      simp [mapSet, mapGet, Ne.symm h]
    · simp [mapSet, h0, mapGet, ih]

theorem mapGet_eq_none_of_not_mem {α : Type} (l : List (String × α))
    (k : String) (h : k ∉ l.map Prod.fst) : mapGet l k = none := by
  induction l with
  | nil => rfl
  | cons hd tl ih =>
    obtain ⟨k0, v0⟩ := hd
    simp only [List.map_cons, List.mem_cons, not_or] at h
    have hk : k0 ≠ k := fun hh => h.1 hh.symm
    simp [mapGet, hk, ih h.2]

theorem mem_of_mapGet_eq_some {α : Type} {l : List (String × α)}
    {k : String} {v : α} (h : mapGet l k = some v) : (k, v) ∈ l := by
  induction l with
  | nil => simp [mapGet] at h
  | cons hd tl ih =>
    obtain ⟨k0, v0⟩ := hd
    by_cases h0 : k0 = k
    · subst h0
      simp [mapGet] at h
      simp [h]
    · simp [mapGet, h0] at h
      exact List.mem_cons_of_mem _ (ih h)

theorem mem_keys_mapSet {α : Type} (l : List (String × α)) (k a : String)
    (v : α) :
    a ∈ (mapSet l k v).map Prod.fst ↔ a ∈ l.map Prod.fst ∨ a = k := by
  induction l with
  | nil => simp [mapSet]
  | cons hd tl ih =>
    obtain ⟨k0, v0⟩ := hd
    by_cases h0 : k0 = k
    · subst h0
      simp [mapSet]
      tauto
    · simp [mapSet, h0, ih]
      tauto

theorem nodup_keys_mapSet {α : Type} (l : List (String × α)) (k : String)
    (v : α) (h : (l.map Prod.fst).Nodup) :
    ((mapSet l k v).map Prod.fst).Nodup := by
  induction l with
  | nil => simp [mapSet]
  | cons hd tl ih =>
    obtain ⟨k0, v0⟩ := hd
    simp only [List.map_cons, List.nodup_cons] at h
    by_cases h0 : k0 = k
    · subst h0
      simpa [mapSet] using h
    · rw [show mapSet ((k0, v0) :: tl) k v = (k0, v0) :: mapSet tl k v from
        by simp [mapSet, h0]]
      refine List.nodup_cons.mpr ⟨?_, ih h.2⟩
      intro hmem
      rcases (mem_keys_mapSet tl k k0 v).mp hmem with hin | heq
      · exact h.1 hin
      · exact h0 heq

theorem mapDelete_eq_of_not_mem {α : Type} (l : List (String × α))
    (k : String) (h : k ∉ l.map Prod.fst) : mapDelete l k = l := by
  induction l with
  | nil => rfl
  | cons hd tl ih =>
    obtain ⟨k0, v0⟩ := hd
    simp only [List.map_cons, List.mem_cons, not_or] at h
    have hk : k0 ≠ k := fun hh => h.1 hh.symm
    simp [mapDelete, hk, ih h.2]

theorem mapGet_mapDelete_self {α : Type} (l : List (String × α))
    (k : String) (h : (l.map Prod.fst).Nodup) :
    mapGet (mapDelete l k) k = none := by
  induction l with
  | nil => rfl
  | cons hd tl ih =>
    obtain ⟨k0, v0⟩ := hd
    simp only [List.map_cons, List.nodup_cons] at h
    by_cases h0 : k0 = k
    · subst h0
      simp only [mapDelete, if_pos rfl]
      exact mapGet_eq_none_of_not_mem tl k0 h.1
    · simp [mapDelete, h0, mapGet, ih h.2]

theorem mapSet_mapSet_same {α : Type} (l : List (String × α)) (k : String)
    (v w : α) : mapSet (mapSet l k v) k w = mapSet l k w := by
  induction l with
  | nil => simp [mapSet]
  | cons hd tl ih =>
    obtain ⟨k0, v0⟩ := hd
    by_cases h0 : k0 = k
    · simp [mapSet, h0]
    · simp [mapSet, h0, ih]

theorem mapGet_mapSet_isSome {α : Type} (l : List (String × α))
    (k2 k : String) (v : α) (h : (mapGet l k2).isSome) :
    (mapGet (mapSet l k v) k2).isSome := by
  by_cases hk : k2 = k
  · subst hk
    simp [mapGet_mapSet_self]
  · rw [mapGet_mapSet_ne l v hk]
    exact h

/-! ensureTypeRecords lemmas. -/

theorem ensureTypeRecords_of_mem {st : TrackerState} {ty : String}
    {part : List (String × TrackingInitialRecord)}
    (h : mapGet st.records ty = some part) :
    ensureTypeRecords ty st = (part, st) := by
  simp [ensureTypeRecords, h]

theorem ensureTypeRecords_of_not_mem {st : TrackerState} {ty : String}
    (h : mapGet st.records ty = none) :
    ensureTypeRecords ty st = ([], ⟨mapSet st.records ty []⟩) := by
  simp [ensureTypeRecords, h]

theorem ensure_get (st : TrackerState) (ty : String) :
    mapGet (ensureTypeRecords ty st).2.records ty =
      some (ensureTypeRecords ty st).1 := by
  cases hp : mapGet st.records ty with
  | none => simp [ensureTypeRecords, hp, mapGet_mapSet_self]
  | some part => simp [ensureTypeRecords, hp]

theorem ensure_part_wf (st : TrackerState) (ty : String) (hwf : WFState st) :
    ((ensureTypeRecords ty st).1.map Prod.fst).Nodup ∧
      ∀ e ∈ (ensureTypeRecords ty st).1, e.1 = e.2.id := by
  cases hp : mapGet st.records ty with
  | none => simp [ensureTypeRecords, hp]
  | some part =>
    have hmem := mem_of_mapGet_eq_some hp
    have hprops := hwf _ hmem
    simpa [ensureTypeRecords, hp] using hprops

theorem ensure_preserves (st : TrackerState) (ty ty2 : String)
    (h : (mapGet st.records ty2).isSome) :
    (mapGet (ensureTypeRecords ty st).2.records ty2).isSome := by
  cases hp : mapGet st.records ty with
  | some part => simpa [ensureTypeRecords, hp] using h
  | none =>
    simp only [ensureTypeRecords, hp]
    exact mapGet_mapSet_isSome _ _ _ _ h

/-! Shapes of the operations. -/

theorem flatten_map_singleton {α β : Type} (l : List α) (f : α → β) :
    (l.map fun a => [f a]).flatten = l.map f := by
  induction l with
  | nil => rfl
  | cons hd tl ih => simp [ih]

/-- On a partition whose entries are keyed by their own record id and
whose keys are distinct (every JavaScript Map partition is), the
forEach loop dispatches every record in order and empties the map. -/
theorem forEachRun_self {α : Type} (os : OnSubmitConfig) (sa : Nat) (d : α)
    (ty : String) (part : List (String × TrackingInitialRecord))
    (hid : ∀ e ∈ part, e.1 = e.2.id)
    (hnd : (part.map Prod.fst).Nodup) :
    forEachRun os sa d ty part part =
      ((part.map fun e => triggerSubmit os e.2 sa d ty).flatten, []) := by
  induction part with
  | nil => rfl
  | cons hd tl ih =>
    obtain ⟨k, r⟩ := hd
    have hk : k = r.id := hid (k, r) (List.mem_cons_self _ _)
    simp only [List.map_cons, List.nodup_cons] at hnd
    have htl : mapDelete ((k, r) :: tl) r.id = tl := by
      simp [mapDelete, hk]
    have hget : mapGet ((k, r) :: tl) k = some r := by
      simp [mapGet]
    have ihx := ih (fun e he => hid e (List.mem_cons_of_mem _ he)) hnd.2
    simp [forEachRun, hget, htl, ihx]

theorem create_state {ε : Type}
    (oc : Option (TrackingInitialRecord → Except ε Unit))
    (ty i : String) (ca : Nat) (st : TrackerState) :
    (create oc ty i ca st).2 =
      ⟨mapSet (ensureTypeRecords ty st).2.records ty
        (mapSet (ensureTypeRecords ty st).1 i ⟨i, ty, ca⟩)⟩ := by
  cases oc with
  | none => rfl
  | some f =>
    cases hf : f ⟨i, ty, ca⟩ with
    | ok u => simp [create, hf]
    | error e => simp [create, hf]

theorem submit_single_found {α : Type} (os : OnSubmitConfig) (ty : String)
    (d : α) (i : String) (sa : Nat) (st : TrackerState)
    (part : List (String × TrackingInitialRecord))
    (r : TrackingInitialRecord) (hi : i ≠ "")
    (hpart : mapGet st.records ty = some part)
    (hr : mapGet part i = some r) :
    submit os ty d (some (IdOrRecord.str i)) sa st =
      (⟨mapSet st.records ty (mapDelete part i)⟩, [],
        triggerSubmit os r sa d ty) := by
  simp [submit, usableId, truthyId, hi, ensureTypeRecords, hpart, hr]

theorem submit_single_missing {α : Type} (os : OnSubmitConfig) (ty : String)
    (d : α) (i : String) (sa : Nat) (st : TrackerState) (hi : i ≠ "")
    (hr : mapGet (ensureTypeRecords ty st).1 i = none) :
    submit os ty d (some (IdOrRecord.str i)) sa st =
      ((ensureTypeRecords ty st).2,
        ["Record with id " ++ i ++ " not found for type " ++ ty], []) := by
  simp [submit, usableId, truthyId, hi, hr]

theorem submit_partition_exists {α : Type} (os : OnSubmitConfig)
    (ty : String) (d : α) (x : Option IdOrRecord) (sa : Nat)
    (st : TrackerState) :
    (mapGet ((submit os ty d x sa st).1).records ty).isSome := by
  cases hx : truthyId (usableId x) with
  | none => simp [submit, hx, mapGet_mapSet_self]
  | some j =>
    cases hr : mapGet (ensureTypeRecords ty st).1 j with
    | none => simp [submit, hx, hr, ensure_get]
    | some r => simp [submit, hx, hr, mapGet_mapSet_self]

theorem submit_preserves_partitions {α : Type} (os : OnSubmitConfig)
    (ty : String) (d : α) (x : Option IdOrRecord) (sa : Nat)
    (st : TrackerState) (ty2 : String)
    (h : (mapGet st.records ty2).isSome) :
    (mapGet ((submit os ty d x sa st).1).records ty2).isSome := by
  have hens := ensure_preserves st ty ty2 h
  cases hx : truthyId (usableId x) with
  | none =>
    simp only [submit, hx]
    exact mapGet_mapSet_isSome _ _ _ _ hens
  | some j =>
    cases hr : mapGet (ensureTypeRecords ty st).1 j with
    | none => simpa [submit, hx, hr] using hens
    | some r =>
      simp only [submit, hx, hr]
      exact mapGet_mapSet_isSome _ _ _ _ hens

theorem create_preserves_partitions {ε : Type}
    (oc : Option (TrackingInitialRecord → Except ε Unit))
    (ty i : String) (ca : Nat) (st : TrackerState) (ty2 : String)
    (h : (mapGet st.records ty2).isSome) :
    (mapGet ((create oc ty i ca st).2).records ty2).isSome := by
  rw [create_state]
  exact mapGet_mapSet_isSome _ _ _ _ (ensure_preserves st ty ty2 h)

/-- getRecord returns the state unchanged in every one of its
branches: the method never mutates storage. -/
theorem getRecord_state_eq (ty i : String) (st : TrackerState) :
    (getRecord ty i st).2.2 = st := by
  cases hp : mapGet st.records ty with
  | none => simp [getRecord, hp]
  | some part =>
    cases hr : mapGet part i with
    | none => simp [getRecord, hp, hr]
    | some r => simp [getRecord, hp, hr]

/-! The claims. -/

/-- Claim C1: submission is consuming.  Starting from any well-formed
state, after r = create(type) followed by submit(type, data, r.id), a
subsequent getRecord(type, r.id) returns null with the missing-id
warning, and a later submit with r.id warns and dispatches nothing:
the record cannot be submitted twice. -/
theorem c1_consuming_submit {α β : Type} (os os2 : OnSubmitConfig)
    (st : TrackerState) (ty i : String) (ca sa sa2 : Nat) (d : α) (d2 : β)
    (st1 st2 : TrackerState) (hwf : WFState st) (hi : i ≠ "")
    (hst1 : st1 =
      (create (none : Option (TrackingInitialRecord → Except Unit Unit))
        ty i ca st).2)
    (hst2 : st2 = (submit os ty d (some (IdOrRecord.str i)) sa st1).1) :
    getRecord ty i st2 =
      (none, ["Record with id " ++ i ++ " not found for type " ++ ty],
        st2) ∧
    submit os2 ty d2 (some (IdOrRecord.str i)) sa2 st2 =
      (st2, ["Record with id " ++ i ++ " not found for type " ++ ty],
        []) := by
  have hprops := ensure_part_wf st ty hwf
  subst hst1 hst2
  rw [create_state]
  have h1 : mapGet
      (⟨mapSet (ensureTypeRecords ty st).2.records ty
        (mapSet (ensureTypeRecords ty st).1 i ⟨i, ty, ca⟩)⟩ :
        TrackerState).records ty =
      some (mapSet (ensureTypeRecords ty st).1 i ⟨i, ty, ca⟩) :=
    mapGet_mapSet_self _ _ _
  have h2 : mapGet (mapSet (ensureTypeRecords ty st).1 i ⟨i, ty, ca⟩) i =
      some ⟨i, ty, ca⟩ := mapGet_mapSet_self _ _ _
  rw [submit_single_found os ty d i sa _ _ _ hi h1 h2]
  have hnd : ((mapSet (ensureTypeRecords ty st).1 i
      ⟨i, ty, ca⟩).map Prod.fst).Nodup :=
    nodup_keys_mapSet _ _ _ hprops.1
  have h3 : mapGet
      (⟨mapSet (mapSet (ensureTypeRecords ty st).2.records ty
          (mapSet (ensureTypeRecords ty st).1 i ⟨i, ty, ca⟩)) ty
        (mapDelete (mapSet (ensureTypeRecords ty st).1 i ⟨i, ty, ca⟩) i)⟩ :
        TrackerState).records ty =
      some (mapDelete (mapSet (ensureTypeRecords ty st).1 i ⟨i, ty, ca⟩) i) :=
    mapGet_mapSet_self _ _ _
  have h4 : mapGet
      (mapDelete (mapSet (ensureTypeRecords ty st).1 i ⟨i, ty, ca⟩) i) i =
      none := mapGet_mapDelete_self _ _ hnd
  constructor
  · simp [getRecord, h3, h4]
  · have h5 := submit_single_missing os2 ty d2 i sa2 _ hi
      (by rw [ensureTypeRecords_of_mem h3]; exact h4)
    rw [ensureTypeRecords_of_mem h3] at h5
    simpa using h5

theorem c1_consuming_submit_witness :
    getRecord "t" "a"
        (submit OnSubmitConfig.globalHandler "t" (3 : Nat)
          (some (IdOrRecord.str "a")) 2
          (create
            (none : Option (TrackingInitialRecord → Except Unit Unit))
            "t" "a" 1 ⟨[]⟩).2).1 =
      (none, ["Record with id a not found for type t"],
        (submit OnSubmitConfig.globalHandler "t" (3 : Nat)
          (some (IdOrRecord.str "a")) 2
          (create
            (none : Option (TrackingInitialRecord → Except Unit Unit))
            "t" "a" 1 ⟨[]⟩).2).1) ∧
    submit OnSubmitConfig.unconfigured "t" (4 : Nat)
        (some (IdOrRecord.str "a")) 6
        (submit OnSubmitConfig.globalHandler "t" (3 : Nat)
          (some (IdOrRecord.str "a")) 2
          (create
            (none : Option (TrackingInitialRecord → Except Unit Unit))
            "t" "a" 1 ⟨[]⟩).2).1 =
      ((submit OnSubmitConfig.globalHandler "t" (3 : Nat)
          (some (IdOrRecord.str "a")) 2
          (create
            (none : Option (TrackingInitialRecord → Except Unit Unit))
            "t" "a" 1 ⟨[]⟩).2).1,
        ["Record with id a not found for type t"], []) :=
  c1_consuming_submit OnSubmitConfig.globalHandler
    OnSubmitConfig.unconfigured ⟨[]⟩ "t" "a" 1 2 6 (3 : Nat) (4 : Nat) _ _
    (by unfold WFState; decide) (by decide) rfl rfl

/-- Claim C2: bulk submit clears the partition.  On a well-formed
state, when the type has a stored partition, submit with no id invokes
the configured global handler once per stored record, in order, each
call carrying the supplied data, and the partition is emptied with no
warning; when no partition exists the call dispatches nothing and
warns nothing (it only creates the empty partition); afterwards every
id under that type resolves to null. -/
theorem c2_bulk_submit_clears {α : Type} (os : OnSubmitConfig)
    (st : TrackerState) (ty i : String) (d : α) (sa : Nat)
    (part : List (String × TrackingInitialRecord)) (hwf : WFState st) :
    (mapGet st.records ty = some part →
      submit OnSubmitConfig.globalHandler ty d none sa st =
        (⟨mapSet st.records ty []⟩, [],
          part.map fun e => ⟨e.2.id, e.2.type, e.2.createdAt, sa, d⟩)) ∧
    (mapGet st.records ty = none →
      submit os ty d none sa st = (⟨mapSet st.records ty []⟩, [], [])) ∧
    getRecord ty i (submit OnSubmitConfig.globalHandler ty d none sa st).1 =
      (none, ["Record with id " ++ i ++ " not found for type " ++ ty],
        (submit OnSubmitConfig.globalHandler ty d none sa st).1) := by
  have hstate : ∀ os3 : OnSubmitConfig,
      (submit os3 ty d none sa st).1 = ⟨mapSet st.records ty []⟩ := by
    intro os3
    cases hp : mapGet st.records ty with
    | some p =>
      have hmem := hwf _ (mem_of_mapGet_eq_some hp)
      have hrun := forEachRun_self os3 sa d ty p hmem.2 hmem.1
      simp [submit, usableId, truthyId, ensureTypeRecords_of_mem hp, hrun]
    | none =>
      simp [submit, usableId, truthyId, ensureTypeRecords_of_not_mem hp,
        forEachRun, mapSet_mapSet_same]
  refine ⟨?_, ?_, ?_⟩
  · intro hpart
    have hmem := hwf _ (mem_of_mapGet_eq_some hpart)
    have hrun := forEachRun_self OnSubmitConfig.globalHandler sa d ty part
      hmem.2 hmem.1
    simp [submit, usableId, truthyId, ensureTypeRecords_of_mem hpart, hrun,
      triggerSubmit, flatten_map_singleton]
  · intro hnone
    simp [submit, usableId, truthyId, ensureTypeRecords_of_not_mem hnone,
      forEachRun, mapSet_mapSet_same]
  · rw [hstate]
    simp [getRecord, mapGet_mapSet_self, mapGet]

theorem c2_bulk_submit_clears_witness :
    submit OnSubmitConfig.globalHandler "t" (5 : Nat) none 9
        (⟨[("t", [("a", ⟨"a", "t", 1⟩), ("b", ⟨"b", "t", 2⟩)])]⟩ :
          TrackerState) =
      (⟨[("t", [])]⟩, [], [⟨"a", "t", 1, 9, 5⟩, ⟨"b", "t", 2, 9, 5⟩]) ∧
    submit OnSubmitConfig.globalHandler "t" (5 : Nat) none 9
        (⟨[]⟩ : TrackerState) = (⟨[("t", [])]⟩, [], []) ∧
    getRecord "t" "a"
        (submit OnSubmitConfig.globalHandler "t" (5 : Nat) none 9
          (⟨[("t", [("a", ⟨"a", "t", 1⟩), ("b", ⟨"b", "t", 2⟩)])]⟩ :
            TrackerState)).1 =
      (none, ["Record with id a not found for type t"],
        (submit OnSubmitConfig.globalHandler "t" (5 : Nat) none 9
          (⟨[("t", [("a", ⟨"a", "t", 1⟩), ("b", ⟨"b", "t", 2⟩)])]⟩ :
            TrackerState)).1) :=
  ⟨(c2_bulk_submit_clears OnSubmitConfig.globalHandler
      ⟨[("t", [("a", ⟨"a", "t", 1⟩), ("b", ⟨"b", "t", 2⟩)])]⟩ "t" "a"
      (5 : Nat) 9 [("a", ⟨"a", "t", 1⟩), ("b", ⟨"b", "t", 2⟩)]
      (by unfold WFState; decide)).1 rfl,
   (c2_bulk_submit_clears OnSubmitConfig.globalHandler ⟨[]⟩ "t" "a"
      (5 : Nat) 9 [] (by unfold WFState; decide)).2.1 rfl,
   (c2_bulk_submit_clears OnSubmitConfig.globalHandler
      ⟨[("t", [("a", ⟨"a", "t", 1⟩), ("b", ⟨"b", "t", 2⟩)])]⟩ "t" "a"
      (5 : Nat) 9 [("a", ⟨"a", "t", 1⟩), ("b", ⟨"b", "t", 2⟩)]
      (by unfold WFState; decide)).2.2⟩

/-- Claim C3: removal is independent of handler presence.  A
single-mode submit that resolves an existing record removes it from
the partition both when onSubmit is a per-type handler table with no
entry for the type (the dispatch step silently does nothing) and when
onSubmit is not configured at all, and the id subsequently resolves to
null. -/
theorem c3_removal_independent_of_handler {α : Type} (st : TrackerState)
    (ty i : String) (d : α) (sa : Nat)
    (part : List (String × TrackingInitialRecord))
    (r : TrackingInitialRecord) (tbl : List String)
    (hwf : WFState st) (hi : i ≠ "")
    (hpart : mapGet st.records ty = some part)
    (hr : mapGet part i = some r) (htbl : ty ∉ tbl) :
    submit (OnSubmitConfig.perType tbl) ty d (some (IdOrRecord.str i)) sa
        st = (⟨mapSet st.records ty (mapDelete part i)⟩, [], []) ∧
    submit OnSubmitConfig.unconfigured ty d (some (IdOrRecord.str i)) sa
        st = (⟨mapSet st.records ty (mapDelete part i)⟩, [], []) ∧
    getRecord ty i
        (submit (OnSubmitConfig.perType tbl) ty d
          (some (IdOrRecord.str i)) sa st).1 =
      (none, ["Record with id " ++ i ++ " not found for type " ++ ty],
        (submit (OnSubmitConfig.perType tbl) ty d
          (some (IdOrRecord.str i)) sa st).1) := by
  have h1 := submit_single_found (OnSubmitConfig.perType tbl) ty d i sa st
    part r hi hpart hr
  have h2 := submit_single_found OnSubmitConfig.unconfigured ty d i sa st
    part r hi hpart hr
  have hnd := (hwf _ (mem_of_mapGet_eq_some hpart)).1
  refine ⟨?_, ?_, ?_⟩
  · rw [h1]
    simp [triggerSubmit, htbl]
  · rw [h2]
    simp [triggerSubmit]
  · rw [h1]
    simp [getRecord, mapGet_mapSet_self, mapGet_mapDelete_self part i hnd]

theorem c3_removal_independent_of_handler_witness :
    submit (OnSubmitConfig.perType ["u"]) "t" (0 : Nat)
        (some (IdOrRecord.str "a")) 9
        (⟨[("t", [("a", ⟨"a", "t", 7⟩)])]⟩ : TrackerState) =
      (⟨[("t", [])]⟩, [], []) ∧
    submit OnSubmitConfig.unconfigured "t" (0 : Nat)
        (some (IdOrRecord.str "a")) 9
        (⟨[("t", [("a", ⟨"a", "t", 7⟩)])]⟩ : TrackerState) =
      (⟨[("t", [])]⟩, [], []) ∧
    getRecord "t" "a"
        (submit (OnSubmitConfig.perType ["u"]) "t" (0 : Nat)
          (some (IdOrRecord.str "a")) 9
          (⟨[("t", [("a", ⟨"a", "t", 7⟩)])]⟩ : TrackerState)).1 =
      (none, ["Record with id a not found for type t"],
        (submit (OnSubmitConfig.perType ["u"]) "t" (0 : Nat)
          (some (IdOrRecord.str "a")) 9
          (⟨[("t", [("a", ⟨"a", "t", 7⟩)])]⟩ : TrackerState)).1) :=
  c3_removal_independent_of_handler
    ⟨[("t", [("a", ⟨"a", "t", 7⟩)])]⟩ "t" "a" (0 : Nat) 9
    [("a", ⟨"a", "t", 7⟩)] ⟨"a", "t", 7⟩ ["u"]
    (by unfold WFState; decide) (by decide) rfl rfl (by decide)

/-- Claim C6: for every type, immediately after r = create(type), a
call getRecord(type, r.id) returns a value equal to r, and the read is
non-destructive: the state after the read is the state after the
create, with the record still stored. -/
theorem c6_round_trip_read (st : TrackerState) (ty i : String) (ca : Nat) :
    (create (none : Option (TrackingInitialRecord → Except Unit Unit))
        ty i ca st).1 = Except.ok ⟨i, ty, ca⟩ ∧
    getRecord ty i
        (create (none : Option (TrackingInitialRecord → Except Unit Unit))
          ty i ca st).2 =
      (some ⟨i, ty, ca⟩, [],
        (create (none : Option (TrackingInitialRecord → Except Unit Unit))
          ty i ca st).2) := by
  constructor
  · rfl
  · rw [create_state]
    simp [getRecord, mapGet_mapSet_self]

/-- Claim C7: getRecord never throws and warns precisely on failure:
with no partition for the type it warns "No records found for type
{type}" and returns null; with a partition lacking the id it warns
"Record with id {id} not found for type {type}" and returns null;
otherwise it returns the stored record, and in every case the state is
left exactly as it was. -/
theorem c7_getRecord_warns_precisely (st : TrackerState) (ty i : String) :
    (mapGet st.records ty = none →
      getRecord ty i st = (none, ["No records found for type " ++ ty], st)) ∧
    (∀ part, mapGet st.records ty = some part → mapGet part i = none →
      getRecord ty i st =
        (none, ["Record with id " ++ i ++ " not found for type " ++ ty],
          st)) ∧
    (∀ part r, mapGet st.records ty = some part → mapGet part i = some r →
      getRecord ty i st = (some r, [], st)) := by
  refine ⟨fun h => by simp [getRecord, h],
    fun part h1 h2 => by simp [getRecord, h1, h2],
    fun part r h1 h2 => by simp [getRecord, h1, h2]⟩

theorem c7_getRecord_warns_precisely_witness :
    getRecord "neverCreated" "x" (⟨[]⟩ : TrackerState) =
      (none, ["No records found for type neverCreated"], ⟨[]⟩) ∧
    getRecord "t" "x" (⟨[("t", [("a", ⟨"a", "t", 3⟩)])]⟩ : TrackerState) =
      (none, ["Record with id x not found for type t"],
        ⟨[("t", [("a", ⟨"a", "t", 3⟩)])]⟩) ∧
    getRecord "t" "a" (⟨[("t", [("a", ⟨"a", "t", 3⟩)])]⟩ : TrackerState) =
      (some ⟨"a", "t", 3⟩, [], ⟨[("t", [("a", ⟨"a", "t", 3⟩)])]⟩) :=
  ⟨(c7_getRecord_warns_precisely ⟨[]⟩ "neverCreated" "x").1 rfl,
   (c7_getRecord_warns_precisely ⟨[("t", [("a", ⟨"a", "t", 3⟩)])]⟩
      "t" "x").2.1 _ rfl rfl,
   (c7_getRecord_warns_precisely ⟨[("t", [("a", ⟨"a", "t", 3⟩)])]⟩
      "t" "a").2.2 _ _ rfl rfl⟩

/-- Claim C8: for every type and every nonempty id with no stored
record under that id, submit(type, data, id) emits the warning
"Record with id {id} not found for type {type}", invokes no submission
handler, and removes no record: the state is the input state with the
type's partition merely ensured. -/
theorem c8_missing_id_single_submit {α : Type} (os : OnSubmitConfig)
    (ty : String) (d : α) (i : String) (sa : Nat) (st : TrackerState)
    (hi : i ≠ "") (hr : mapGet (ensureTypeRecords ty st).1 i = none) :
    submit os ty d (some (IdOrRecord.str i)) sa st =
      ((ensureTypeRecords ty st).2,
        ["Record with id " ++ i ++ " not found for type " ++ ty], []) :=
  submit_single_missing os ty d i sa st hi hr

theorem c8_missing_id_single_submit_witness :
    submit OnSubmitConfig.globalHandler "t" (0 : Nat)
        (some (IdOrRecord.str "nope")) 0 (⟨[]⟩ : TrackerState) =
      ((ensureTypeRecords "t" ⟨[]⟩).2,
        ["Record with id nope not found for type t"], []) :=
  c8_missing_id_single_submit OnSubmitConfig.globalHandler "t" 0 "nope" 0
    ⟨[]⟩ (by decide) rfl

/-- Claim C9: a string idOrRecord argument is used directly as the
target id (it behaves exactly like a record-like argument carrying
that id), a record-like argument has its id field extracted, and an
omitted argument, a record-like value lacking a usable id, and an
empty-string id (bare or inside a record) all resolve to "no id" and
behave exactly like the omitted, bulk-mode call. -/
theorem c9_id_resolution {α : Type} (os : OnSubmitConfig) (ty : String)
    (d : α) (sa : Nat) (st : TrackerState) :
    submit os ty d (some (IdOrRecord.str "")) sa st =
      submit os ty d none sa st ∧
    submit os ty d (some (IdOrRecord.recLike none)) sa st =
      submit os ty d none sa st ∧
    submit os ty d (some (IdOrRecord.recLike (some ""))) sa st =
      submit os ty d none sa st ∧
    ∀ s, submit os ty d (some (IdOrRecord.recLike (some s))) sa st =
      submit os ty d (some (IdOrRecord.str s)) sa st := by
  refine ⟨rfl, rfl, rfl, fun s => rfl⟩

/-- Counterexample to claim C4 as stated: on a fresh manager, a
single-mode submit whose lookup fails does change the stored
type-to-id-to-record mapping — it brings the type's (empty) partition
into existence. -/
theorem c4_counterexample :
    (submit OnSubmitConfig.unconfigured "t" (0 : Nat)
        (some (IdOrRecord.str "x")) 0 (⟨[]⟩ : TrackerState)).1 ≠
      (⟨[]⟩ : TrackerState) := by decide

/-- Claim C4, amended: a getRecord call always leaves the state
exactly unchanged.  A single-mode submit whose lookup fails emits only
the diagnostic warning, invokes no handler, and removes nothing: every
partition already present keeps exactly its contents (and when the
type's partition already exists the state is exactly unchanged), but
when the type's partition does not yet exist the call creates it
empty. -/
theorem c4_failed_lookups_effects {α : Type} (os : OnSubmitConfig)
    (st : TrackerState) (ty i : String) (d : α) (sa : Nat)
    (hi : i ≠ "") (hr : mapGet (ensureTypeRecords ty st).1 i = none) :
    (getRecord ty i st).2.2 = st ∧
    submit os ty d (some (IdOrRecord.str i)) sa st =
      ((ensureTypeRecords ty st).2,
        ["Record with id " ++ i ++ " not found for type " ++ ty], []) ∧
    ((mapGet st.records ty).isSome → (ensureTypeRecords ty st).2 = st) ∧
    (∀ ty2, ty2 ≠ ty →
      mapGet (ensureTypeRecords ty st).2.records ty2 =
        mapGet st.records ty2) ∧
    (mapGet st.records ty = none →
      (ensureTypeRecords ty st).2.records = mapSet st.records ty []) := by
  refine ⟨getRecord_state_eq ty i st,
    submit_single_missing os ty d i sa st hi hr, ?_, ?_, ?_⟩
  · intro hsome
    obtain ⟨part, hp⟩ := Option.isSome_iff_exists.mp hsome
    rw [ensureTypeRecords_of_mem hp]
  · intro ty2 hne
    cases hp : mapGet st.records ty with
    | some part => rw [ensureTypeRecords_of_mem hp]
    | none =>
      rw [ensureTypeRecords_of_not_mem hp]
      exact mapGet_mapSet_ne st.records _ hne
  · intro hp
    rw [ensureTypeRecords_of_not_mem hp]

theorem c4_failed_lookups_effects_witness :
    (getRecord "t" "x"
        (⟨[("t", [("b", ⟨"b", "t", 1⟩)])]⟩ : TrackerState)).2.2 =
      (⟨[("t", [("b", ⟨"b", "t", 1⟩)])]⟩ : TrackerState) ∧
    submit OnSubmitConfig.globalHandler "t" (0 : Nat)
        (some (IdOrRecord.str "x")) 5
        (⟨[("t", [("b", ⟨"b", "t", 1⟩)])]⟩ : TrackerState) =
      ((ensureTypeRecords "t" ⟨[("t", [("b", ⟨"b", "t", 1⟩)])]⟩).2,
        ["Record with id x not found for type t"], []) ∧
    (ensureTypeRecords "t" ⟨[("t", [("b", ⟨"b", "t", 1⟩)])]⟩).2 =
      (⟨[("t", [("b", ⟨"b", "t", 1⟩)])]⟩ : TrackerState) ∧
    mapGet (ensureTypeRecords "t"
        ⟨[("t", [("b", ⟨"b", "t", 1⟩)])]⟩).2.records "u" =
      mapGet (⟨[("t", [("b", ⟨"b", "t", 1⟩)])]⟩ : TrackerState).records
        "u" :=
  ⟨(c4_failed_lookups_effects OnSubmitConfig.globalHandler
      ⟨[("t", [("b", ⟨"b", "t", 1⟩)])]⟩ "t" "x" (0 : Nat) 5 (by decide)
      rfl).1,
   (c4_failed_lookups_effects OnSubmitConfig.globalHandler
      ⟨[("t", [("b", ⟨"b", "t", 1⟩)])]⟩ "t" "x" (0 : Nat) 5 (by decide)
      rfl).2.1,
   (c4_failed_lookups_effects OnSubmitConfig.globalHandler
      ⟨[("t", [("b", ⟨"b", "t", 1⟩)])]⟩ "t" "x" (0 : Nat) 5 (by decide)
      rfl).2.2.1 rfl,
   (c4_failed_lookups_effects OnSubmitConfig.globalHandler
      ⟨[("t", [("b", ⟨"b", "t", 1⟩)])]⟩ "t" "x" (0 : Nat) 5 (by decide)
      rfl).2.2.2.1 "u" (by decide)⟩

/-- Counterexample to claim C5 as stated: getRecord is a referencing
operation, yet on a fresh manager it does not bring the type's
partition into existence — the state is unchanged and still has no
partition for the type. -/
theorem c5_counterexample :
    (getRecord "t" "x" (⟨[]⟩ : TrackerState)).2.2 =
      (⟨[]⟩ : TrackerState) ∧
    mapGet ((getRecord "t" "x" (⟨[]⟩ : TrackerState)).2.2).records "t" =
      none := by
  exact ⟨rfl, rfl⟩

/-- Claim C5, amended: a type's partition comes into existence on the
first create or submit that references the type — getRecord never
creates it, leaving the state unchanged — and partitions persist for
the manager's lifetime: no operation ever removes an existing
partition, even after it is emptied. -/
theorem c5_lazy_partition_creation {α ε : Type}
    (oc : Option (TrackingInitialRecord → Except ε Unit))
    (os : OnSubmitConfig) (st : TrackerState) (ty ty2 i : String)
    (ca sa : Nat) (d : α) (x : Option IdOrRecord) :
    (mapGet ((create oc ty i ca st).2).records ty).isSome ∧
    (mapGet ((submit os ty d x sa st).1).records ty).isSome ∧
    (getRecord ty i st).2.2 = st ∧
    ((mapGet st.records ty2).isSome →
      (mapGet ((create oc ty i ca st).2).records ty2).isSome ∧
      (mapGet ((submit os ty d x sa st).1).records ty2).isSome) := by
  refine ⟨?_, submit_partition_exists os ty d x sa st,
    getRecord_state_eq ty i st,
    fun h => ⟨create_preserves_partitions oc ty i ca st ty2 h,
      submit_preserves_partitions os ty d x sa st ty2 h⟩⟩
  rw [create_state]
  simp [mapGet_mapSet_self]

theorem c5_lazy_partition_creation_witness :
    (mapGet ((create
        (none : Option (TrackingInitialRecord → Except Unit Unit)) "t"
        "a" 1 (⟨[("u", [])]⟩ : TrackerState)).2).records "t").isSome ∧
    (mapGet ((submit OnSubmitConfig.globalHandler "t" (0 : Nat) none 2
        (⟨[("u", [])]⟩ : TrackerState)).1).records "t").isSome ∧
    (getRecord "t" "a" (⟨[("u", [])]⟩ : TrackerState)).2.2 =
      (⟨[("u", [])]⟩ : TrackerState) ∧
    ((mapGet ((create
        (none : Option (TrackingInitialRecord → Except Unit Unit)) "t"
        "a" 1 (⟨[("u", [])]⟩ : TrackerState)).2).records "u").isSome ∧
      (mapGet ((submit OnSubmitConfig.globalHandler "t" (0 : Nat) none 2
        (⟨[("u", [])]⟩ : TrackerState)).1).records "u").isSome) :=
  ⟨(c5_lazy_partition_creation
      (none : Option (TrackingInitialRecord → Except Unit Unit))
      OnSubmitConfig.globalHandler ⟨[("u", [])]⟩ "t" "u" "a" 1 2 (0 : Nat)
      none).1,
   (c5_lazy_partition_creation
      (none : Option (TrackingInitialRecord → Except Unit Unit))
      OnSubmitConfig.globalHandler ⟨[("u", [])]⟩ "t" "u" "a" 1 2 (0 : Nat)
      none).2.1,
   (c5_lazy_partition_creation
      (none : Option (TrackingInitialRecord → Except Unit Unit))
      OnSubmitConfig.globalHandler ⟨[("u", [])]⟩ "t" "u" "a" 1 2 (0 : Nat)
      none).2.2.1,
   (c5_lazy_partition_creation
      (none : Option (TrackingInitialRecord → Except Unit Unit))
      OnSubmitConfig.globalHandler ⟨[("u", [])]⟩ "t" "u" "a" 1 2 (0 : Nat)
      none).2.2.2 rfl⟩

/-- Claim C10: create inserts before notifying.  When the onCreate
callback throws, the exception propagates to the caller of create, the
resulting state is exactly the state an exception-free create would
have produced, and the new record is already stored: getRecord with
the generated id returns it. -/
theorem c10_create_inserts_before_notifying {ε : Type}
    (f : TrackingInitialRecord → Except ε Unit) (st : TrackerState)
    (ty i : String) (ca : Nat) (e : ε)
    (hf : f ⟨i, ty, ca⟩ = Except.error e) :
    (create (some f) ty i ca st).1 = Except.error e ∧
    (create (some f) ty i ca st).2 =
      (create (none : Option (TrackingInitialRecord → Except Unit Unit))
        ty i ca st).2 ∧
    getRecord ty i (create (some f) ty i ca st).2 =
      (some ⟨i, ty, ca⟩, [], (create (some f) ty i ca st).2) := by
  refine ⟨?_, ?_, ?_⟩
  · simp [create, hf]
  · rw [create_state, create_state]
  · rw [create_state]
    simp [getRecord, mapGet_mapSet_self]

theorem c10_create_inserts_before_notifying_witness :
    (create (some (fun _ =>
        (Except.error "boom" : Except String Unit))) "t" "a" 0
      (⟨[]⟩ : TrackerState)).1 = Except.error "boom" ∧
    (create (some (fun _ =>
        (Except.error "boom" : Except String Unit))) "t" "a" 0
      (⟨[]⟩ : TrackerState)).2 =
      (create (none : Option (TrackingInitialRecord → Except Unit Unit))
        "t" "a" 0 ⟨[]⟩).2 ∧
    getRecord "t" "a"
        (create (some (fun _ =>
          (Except.error "boom" : Except String Unit))) "t" "a" 0
          (⟨[]⟩ : TrackerState)).2 =
      (some ⟨"a", "t", 0⟩, [],
        (create (some (fun _ =>
          (Except.error "boom" : Except String Unit))) "t" "a" 0
          (⟨[]⟩ : TrackerState)).2) :=
  c10_create_inserts_before_notifying
    (fun _ => Except.error "boom") ⟨[]⟩ "t" "a" 0 "boom" rfl

end Tracker
